import Mathlib

/-!
Shallow embedding of `parakeet.py` (the `CanarySTT` speech-to-text HTTP
adapter) and proofs about its request/response contract, configuration
policy, error collapsing and disposal behaviour.

Modelling conventions:
* The audio buffer is represented by the byte list that
  `rtc.combine_audio_frames(buffer).to_wav_bytes()` produces (an external
  livekit call); bytes are `Nat`.
* The network is a parameter `net : Request → NetResult`: either a
  successful `HttpResponse` or a `requests.exceptions.RequestException`
  (which includes read/connect timeouts).
* JSON response bodies are association lists of string keys to a small
  JSON value type; `response.json()` failing to parse is `json = none`.
* Wall-clock timing (`time.time()`), which the source uses only inside a
  log message, is elided from the log text.
-/

/-- Module-level constant `AUDIO_SAMPLE_RATE = 24000` from `parakeet.py`. -/
def AUDIO_SAMPLE_RATE : Nat := 24000

/-- Module-level constant `ASR_SAMPLE_RATE = 16000` from `parakeet.py`. -/
def ASR_SAMPLE_RATE : Nat := 16000

/-- The `CanaryOptions` dataclass: configuration of the adapter. -/
structure CanaryOptions where
  server_url : String
  language : String
  deriving Repr, DecidableEq

/-- Minimal JSON value type for the fields the service returns. -/
inductive JsonValue where
  | str (s : String)
  | num (n : Int)
  | null
  deriving Repr, DecidableEq

/-- A parsed JSON object body: association list of fields. -/
abbrev JsonObject := List (String × JsonValue)

/-- Python `dict.get(k)`: the value at the first matching key, if any. -/
def jsonGet (o : JsonObject) (k : String) : Option JsonValue :=
  (List.find? (fun p => p.1 == k) o).map (fun p => p.2)

/-- An HTTP response as seen by the adapter: `status_code`, the parsed
JSON body when `response.json()` succeeds (`none` when it raises), and
`text`, the raw body text used in the failure log. -/
structure HttpResponse where
  status_code : Nat
  json : Option JsonObject
  text : String
  deriving Repr

/-- One outbound HTTP request as assembled by `self._session.post(...)`:
URL, body bytes, the wire headers (session-level headers merged with the
per-call dict), query parameters and the timeout in seconds. -/
structure Request where
  url : String
  body : List Nat
  headers : List (String × String)
  params : List (String × Nat)
  timeout : Nat
  deriving Repr

/-- Outcome of handing a request to the `requests` session: a response,
or a `requests.exceptions.RequestException` (connection refused, DNS
failure, TLS failure, or the 10-second timeout elapsing). -/
inductive NetResult where
  | success (resp : HttpResponse)
  | requestException (msg : String)

/-- Error taxonomy of the host framework (`livekit.agents`).  The adapter
only ever raises `APIConnectionError` (with no payload), collapsing every
failure variety into that one kind. -/
inductive APIError where
  | APIConnectionError
  | APIStatusError (status : Nat)
  | APITimeoutError
  deriving Repr, DecidableEq

/-- `stt.SpeechEventType` (the members this adapter can emit or that a
streaming adapter would emit). -/
inductive SpeechEventType where
  | FINAL_TRANSCRIPT
  | INTERIM_TRANSCRIPT
  | START_OF_SPEECH
  | END_OF_SPEECH
  deriving Repr, DecidableEq

/-- `stt.SpeechData`: one transcription alternative. -/
structure SpeechData where
  text : String
  language : String
  deriving Repr, DecidableEq

/-- `stt.SpeechEvent`: the value `_recognize_impl` returns on success. -/
structure SpeechEvent where
  type : SpeechEventType
  alternatives : List SpeechData
  deriving Repr, DecidableEq

/-- Observable outcome of one `_recognize_impl` call: the returned event
or raised error, the list of HTTP requests issued during the call, and
the internal log records produced. -/
structure RecognizeOutcome where
  result : Except APIError SpeechEvent
  requests : List Request
  log : List String
  deriving Repr

/-- Session-level headers installed by `__init__` via
`self._session.headers.update({...})` (lines 72-76). -/
def session_headers : List (String × String) :=
  [("User-Agent", "CanarySTT/1.0"),
   ("Connection", "keep-alive"),
   ("Keep-Alive", "timeout=300, max=10000")]

/-- The header template `self._base_headers` built in `__init__`
(lines 82-85).  Note: `_recognize_impl` never reads this field; the
request is sent with its own minimal header dict. -/
def base_headers : List (String × String) :=
  [("Content-Type", "application/octet-stream"),
   ("Accept", "application/json")]

/-- `update_options`: partial update of `self._opts`.  Python evaluates
`if server_url:` / `if language:`, i.e. truthiness — `None` and the empty
string both leave the field unchanged. -/
def update_options (opts : CanaryOptions) (server_url : Option String)
    (language : Option String) : CanaryOptions :=
  let opts1 :=
    match server_url with
    | some s => if s ≠ "" then { opts with server_url := s } else opts
    | none => opts
  match language with
  | some l => if l ≠ "" then { opts1 with language := l } else opts1
  | none => opts1

/-- `_sanitize_options`: `dataclasses.replace(self._opts)` then an
override applied whenever `language is not None` (the empty string is a
valid override here, unlike in `update_options`). -/
def sanitize_options (opts : CanaryOptions) (language : Option String) :
    CanaryOptions :=
  match language with
  | some l => { opts with language := l }
  | none => opts

/-- The single request `_recognize_impl` assembles (lines 141-157):
URL `{options.server_url}/v1/transcribe/canary`, body `wav_bytes[44:]`,
per-call headers `Content-Type: application/octet-stream` merged onto the
session headers, query parameter `sample_rate = AUDIO_SAMPLE_RATE`, and
`timeout = 10.0` seconds. -/
def build_request (options : CanaryOptions) (wav_bytes : List Nat) :
    Request :=
  { url := options.server_url ++ "/v1/transcribe/canary"
    body := List.drop 44 wav_bytes
    headers := session_headers ++ [("Content-Type", "application/octet-stream")]
    params := [("sample_rate", AUDIO_SAMPLE_RATE)]
    timeout := 10 }

/-- Python `str.strip()`: remove leading and trailing whitespace.  It is
defined here over the character list so that it evaluates by reduction
(core's `String.trim` is defined by well-founded recursion and agrees on
ASCII whitespace). -/
def pyStrip (s : String) : String :=
  String.mk
    (((s.data.dropWhile Char.isWhitespace).reverse.dropWhile
        Char.isWhitespace).reverse)

/-- The extraction `result.get('text', '').strip()` (line 163): a missing
field defaults to `''` before stripping; a present non-string value makes
`.strip()` raise (modelled as `none`), which the general handler turns
into a connection error. -/
def extract_text (o : JsonObject) : Option String :=
  match jsonGet o "text" with
  | none => some (pyStrip "")
  | some (JsonValue.str s) => some (pyStrip s)
  | some _ => none

/-- An observability field as consumed by the success-log record:
`result.get('processing_time', 0)` / `result.get('audio_duration', 0)`
(lines 164-165) feed the numeric format specifiers of the log f-string on
line 166.  A missing field defaults to `0` and a numeric field formats
fine; a present non-numeric value (JSON `null` or a string) makes the
format expression raise (modelled as `none`), which the general handler
turns into a connection error. -/
def observability_number (v : Option JsonValue) : Option Int :=
  match v with
  | none => some 0
  | some (JsonValue.num n) => some n
  | some _ => none

/-- Body of `_recognize_impl` after the snapshot has been taken (lines
140-188), driven by the already-captured `options` snapshot.  The
`try/except` structure maps every failure — the request raising, a
non-200 status, an unparsable body, a non-string `text` field, the
success-log f-string raising on a non-numeric observability field — to
`APIConnectionError`, recording the distinguishing detail in the log.
In the 200 branch the source evaluates, in order: the `text` extraction
(line 163), then the log f-string (line 166) formatting
`processing_time` and `audio_duration`; only once that log record is
written does it build and return the `SpeechEvent`. -/
def recognize_with_snapshot (options : CanaryOptions) (wav_bytes : List Nat)
    (net : Request → NetResult) : RecognizeOutcome :=
  let req := build_request options wav_bytes
  match net req with
  | NetResult.requestException msg =>
      { result := Except.error APIError.APIConnectionError
        requests := [req]
        log := ["HTTP request error in speech recognition: " ++ msg] }
  | NetResult.success resp =>
      if resp.status_code = 200 then
        match resp.json with
        | some obj =>
          match extract_text obj with
          | some full_text =>
            match observability_number (jsonGet obj "processing_time"),
                observability_number (jsonGet obj "audio_duration") with
            | some _, some _ =>
                { result := Except.ok
                    { type := SpeechEventType.FINAL_TRANSCRIPT
                      alternatives :=
                        [{ text := if full_text = "" then "" else full_text
                           language := options.language }] }
                  requests := [req]
                  log := ["HTTP transcription successful, transcript: " ++ full_text] }
            | _, _ =>
                { result := Except.error APIError.APIConnectionError
                  requests := [req]
                  log := ["Error in speech recognition: formatting the success log record raised"] }
          | none =>
              { result := Except.error APIError.APIConnectionError
                requests := [req]
                log := ["Error in speech recognition: text field is not a string"] }
        | none =>
            { result := Except.error APIError.APIConnectionError
              requests := [req]
              log := ["HTTP request error in speech recognition: invalid JSON body"] }
      else
        { result := Except.error APIError.APIConnectionError
          requests := [req]
          log := ["Error in speech recognition: HTTP transcription failed with status "
                    ++ toString resp.status_code ++ ": " ++ resp.text] }

/-- `_recognize_impl` (lines 118-188): first snapshot the configuration
with the per-call override (line 138), then run the request/response
logic against that snapshot.  `conn_options` is received but unused by
the source, so it is not a parameter here. -/
def recognize_impl (opts : CanaryOptions) (wav_bytes : List Nat)
    (language : Option String) (net : Request → NetResult) :
    RecognizeOutcome :=
  recognize_with_snapshot (sanitize_options opts language) wav_bytes net

/-- The client object: its only model-relevant state is `self._opts`;
the session and header template are process resources handled above. -/
structure CanarySTT where
  opts : CanaryOptions
  deriving Repr, DecidableEq

/-- `CanarySTT.__init__`: stores the configuration. -/
def CanarySTT.init (server_url : String) (language : String) : CanarySTT :=
  { opts := { server_url := server_url, language := language } }

/-- `update_options` as a step on the client state. -/
def CanarySTT.updateOptions (c : CanarySTT) (server_url : Option String)
    (language : Option String) : CanarySTT :=
  { c with opts := update_options c.opts server_url language }

/-- `_recognize_impl` as a step on the client state: the outcome plus the
state after the call.  The source never assigns to `self._opts` inside
`_recognize_impl`, so the state is returned unchanged. -/
def CanarySTT.recognize (c : CanarySTT) (wav_bytes : List Nat)
    (language : Option String) (net : Request → NetResult) :
    RecognizeOutcome × CanarySTT :=
  (recognize_impl c.opts wav_bytes language net, c)

/-- `__del__` (lines 190-197): if a session attribute exists, close it;
the surrounding `try/except Exception` swallows any failure, logging it
at debug level.  `close_result` models whether `self._session.close()`
raises.  The return type exposes that disposal itself could in principle
report a failure — the proofs show it never does. -/
def canary_del (has_session : Bool) (close_result : Except String Unit) :
    Except String (List String) :=
  if has_session then
    match close_result with
    | Except.ok _ => Except.ok ["Session closed in destructor"]
    | Except.error e => Except.ok ["Error closing session in destructor: " ++ e]
  else
    Except.ok []

/-! ## Helper lemmas -/

/-- The snapshot's language is the override when one was given (even the
empty string), otherwise the configured language. -/
theorem sanitize_options_language (opts : CanaryOptions)
    (language : Option String) :
    (sanitize_options opts language).language = language.getD opts.language := by
  cases language <;> rfl

/-- The snapshot never changes the server URL. -/
theorem sanitize_options_server_url (opts : CanaryOptions)
    (language : Option String) :
    (sanitize_options opts language).server_url = opts.server_url := by
  cases language <;> rfl

/-- Every outcome of `recognize_with_snapshot` issues exactly the one
request built from the snapshot. -/
theorem recognize_with_snapshot_requests (options : CanaryOptions)
    (wav_bytes : List Nat) (net : Request → NetResult) :
    (recognize_with_snapshot options wav_bytes net).requests =
      [build_request options wav_bytes] := by
  simp only [recognize_with_snapshot]
  split
  · rfl
  · split
    · split
      · split
        · split <;> rfl
        · rfl
      · rfl
    · rfl

/-! ## Claim theorems -/

/-- C1: every call to `transcribe` issues exactly one POST request, whose
body is the WAV byte encoding of the flattened buffer with its first 44
bytes (the fixed WAV header) removed, so the body length is the WAV
encoding's length minus 44. -/
theorem transcribe_single_post_strips_wav_header (opts : CanaryOptions)
    (wav_bytes : List Nat) (language : Option String)
    (net : Request → NetResult) :
    (recognize_impl opts wav_bytes language net).requests =
        [build_request (sanitize_options opts language) wav_bytes] ∧
      (build_request (sanitize_options opts language) wav_bytes).body =
        List.drop 44 wav_bytes ∧
      (build_request (sanitize_options opts language) wav_bytes).body.length =
        wav_bytes.length - 44 := by
  refine ⟨recognize_with_snapshot_requests _ _ _, rfl, ?_⟩
  simp [build_request]

/-- C3 (amended): every call posts to `{server_url}/v1/transcribe/canary`
with query parameter `sample_rate=24000`, request header
`Content-Type: application/octet-stream` and a 10-second timeout, and a
timeout is a connection failure, never a partial result; however the
`Accept: application/json` header, although prepared in the constructor's
`_base_headers` template, is never attached to the outbound request. -/
theorem transcribe_request_shape (opts : CanaryOptions) (wav_bytes : List Nat)
    (language : Option String) (net : Request → NetResult) (msg : String) :
    (recognize_impl opts wav_bytes language net).requests =
        [build_request (sanitize_options opts language) wav_bytes] ∧
      (build_request (sanitize_options opts language) wav_bytes).url =
        opts.server_url ++ "/v1/transcribe/canary" ∧
      (build_request (sanitize_options opts language) wav_bytes).params =
        [("sample_rate", 24000)] ∧
      ("Content-Type", "application/octet-stream") ∈
        (build_request (sanitize_options opts language) wav_bytes).headers ∧
      ("Accept", "application/json") ∉
        (build_request (sanitize_options opts language) wav_bytes).headers ∧
      ("Accept", "application/json") ∈ base_headers ∧
      (build_request (sanitize_options opts language) wav_bytes).timeout = 10 ∧
      (recognize_impl opts wav_bytes language
          (fun _ => NetResult.requestException msg)).result =
        Except.error APIError.APIConnectionError := by
  refine ⟨recognize_with_snapshot_requests _ _ _, ?_, rfl, ?_, ?_, ?_, rfl, rfl⟩
  · simp [build_request, sanitize_options_server_url]
  · simp [build_request, session_headers]
  · simp [build_request, session_headers]
  · simp [base_headers]

/-- C3 (counterexample): on a concrete call the single issued request
does not carry the header `Accept: application/json`, contradicting the
claimed request headers. -/
theorem transcribe_request_lacks_accept_json :
    (recognize_impl { server_url := "http://localhost:8989", language := "en" }
          (List.replicate 48 0) none
          (fun _ => NetResult.requestException "connection refused")).requests =
        [build_request { server_url := "http://localhost:8989", language := "en" }
          (List.replicate 48 0)] ∧
      ("Accept", "application/json") ∉
        (build_request { server_url := "http://localhost:8989", language := "en" }
          (List.replicate 48 0)).headers :=
  ⟨rfl, by decide⟩

/-- C4: every failing `transcribe` call surfaces as the single uniform
`APIConnectionError` kind — the result is either a success or exactly that
error, and in particular a request-level timeout exception and a 500
response produce the very same externally visible error. -/
theorem transcribe_failures_collapse (opts : CanaryOptions)
    (wav_bytes : List Nat) (language : Option String)
    (net : Request → NetResult) (msg body : String) :
    ((recognize_impl opts wav_bytes language net).result =
          Except.error APIError.APIConnectionError ∨
        ∃ ev, (recognize_impl opts wav_bytes language net).result =
          Except.ok ev) ∧
      (recognize_impl opts wav_bytes language
          (fun _ => NetResult.requestException msg)).result =
        Except.error APIError.APIConnectionError ∧
      (recognize_impl opts wav_bytes language
          (fun _ => NetResult.success
            { status_code := 500, json := none, text := body })).result =
        Except.error APIError.APIConnectionError := by
  refine ⟨?_, rfl, rfl⟩
  simp only [recognize_impl, recognize_with_snapshot]
  split
  · exact Or.inl rfl
  · split
    · split
      · split
        · split
          · exact Or.inr ⟨_, rfl⟩
          · exact Or.inl rfl
        · exact Or.inl rfl
      · exact Or.inl rfl
    · exact Or.inl rfl

/-- C8: a per-call language override never persists — after the call,
whether it succeeded or failed, the client's shared configuration (server
URL and language) is exactly what it was before the call. -/
theorem language_override_never_persists (c : CanarySTT)
    (wav_bytes : List Nat) (language : Option String)
    (net : Request → NetResult) :
    (CanarySTT.recognize c wav_bytes language net).2 = c ∧
      (CanarySTT.recognize c wav_bytes language net).2.opts.server_url =
        c.opts.server_url ∧
      (CanarySTT.recognize c wav_bytes language net).2.opts.language =
        c.opts.language :=
  ⟨rfl, rfl, rfl⟩

/-- C9: disposal never propagates a failure — for any client state
(session present or not) and any behaviour of the underlying close (even
one that raises), two consecutive disposal calls both complete without
raising. -/
theorem del_never_raises (has_session : Bool)
    (close1 close2 : Except String Unit) :
    (canary_del has_session close1).isOk = true ∧
      (canary_del has_session close2).isOk = true := by
  cases has_session <;> cases close1 <;> cases close2 <;> exact ⟨rfl, rfl⟩

/-- C10: the empty string is treated asymmetrically — as a per-call
override it is applied (the snapshot and the returned result carry
language `""`), while `update_options(language="")` leaves the
configuration unchanged. -/
theorem empty_language_asymmetry (opts : CanaryOptions)
    (wav_bytes : List Nat) :
    (sanitize_options opts (some "")).language = "" ∧
      update_options opts none (some "") = opts ∧
      (recognize_impl opts wav_bytes (some "")
          (fun _ => NetResult.success
            { status_code := 200
              json := some [("text", JsonValue.str "hi")]
              text := "" })).result =
        Except.ok { type := SpeechEventType.FINAL_TRANSCRIPT
                    alternatives := [{ text := "hi", language := "" }] } := by
  refine ⟨rfl, ?_, rfl⟩
  simp [update_options]

/-- The `full_text or ""` idiom (line 175) is the identity on strings. -/
theorem or_empty_eq (t : String) : (if t = "" then "" else t) = t := by
  by_cases h : t = "" <;> simp [h]

/-- C2 (amended): a 200 response whose JSON body carries a string `text`
field yields a FINAL transcript whose text is that field stripped of
surrounding whitespace and whose language is the effective language of
the call's snapshot (the override when given, else the configured one) —
provided the optional observability fields `processing_time` and
`audio_duration` are each absent or numeric; a present non-numeric value
makes the success-log f-string raise and the call fail with the
connection error instead. -/
theorem transcribe_200_returns_trimmed_text (opts : CanaryOptions)
    (wav_bytes : List Nat) (language : Option String) (resp : HttpResponse)
    (obj : JsonObject) (s : String) (pt ad : Int)
    (h200 : resp.status_code = 200) (hjson : resp.json = some obj)
    (htext : jsonGet obj "text" = some (JsonValue.str s))
    (hpt : observability_number (jsonGet obj "processing_time") = some pt)
    (had : observability_number (jsonGet obj "audio_duration") = some ad) :
    (recognize_impl opts wav_bytes language
        (fun _ => NetResult.success resp)).result =
      Except.ok
        { type := SpeechEventType.FINAL_TRANSCRIPT
          alternatives := [{ text := pyStrip s
                             language := language.getD opts.language }] } := by
  simp only [recognize_impl, recognize_with_snapshot, extract_text, h200,
    hjson, htext, hpt, had, if_pos, or_empty_eq, sanitize_options_language]

/-- C2 (counterexample): a concrete 200 response whose body is
`{"text": "hello world", "processing_time": null}` does not return the
claimed transcript — the success-log f-string raises on the `null`
observability field and the call fails with the connection error. -/
theorem transcribe_200_null_processing_time_fails :
    (recognize_impl { server_url := "http://localhost:8989", language := "en" }
        [] none
        (fun _ => NetResult.success
          { status_code := 200
            json := some [("text", JsonValue.str "hello world"),
                          ("processing_time", JsonValue.null)]
            text := "" })).result =
      Except.error APIError.APIConnectionError := rfl

/-- C2 witness: a concrete call receiving `200` with body
`{"text": "hello world"}` (observability fields absent, so they default
to `0`) and configured language `"en"`. -/
theorem transcribe_200_returns_trimmed_text_witness :
    ((200 : Nat) = 200 ∧
        (some [("text", JsonValue.str "hello world")] : Option JsonObject) =
          some [("text", JsonValue.str "hello world")] ∧
        jsonGet [("text", JsonValue.str "hello world")] "text" =
          some (JsonValue.str "hello world") ∧
        observability_number
            (jsonGet [("text", JsonValue.str "hello world")] "processing_time") =
          some 0 ∧
        observability_number
            (jsonGet [("text", JsonValue.str "hello world")] "audio_duration") =
          some 0) ∧
      (recognize_impl { server_url := "http://localhost:8989", language := "en" }
          [] none
          (fun _ => NetResult.success
            { status_code := 200
              json := some [("text", JsonValue.str "hello world")]
              text := "" })).result =
        Except.ok
          { type := SpeechEventType.FINAL_TRANSCRIPT
            alternatives := [{ text := "hello world", language := "en" }] } :=
  ⟨⟨rfl, rfl, rfl, rfl, rfl⟩,
    transcribe_200_returns_trimmed_text
      { server_url := "http://localhost:8989", language := "en" } [] none
      { status_code := 200
        json := some [("text", JsonValue.str "hello world")]
        text := "" }
      [("text", JsonValue.str "hello world")] "hello world" 0 0
      rfl rfl rfl rfl rfl⟩

/-- C5: every call receiving a non-200 status fails with the connection
error, and the internal log record contains exactly the status code and
the response body text. -/
theorem transcribe_non200_fails_with_logged_detail (opts : CanaryOptions)
    (wav_bytes : List Nat) (language : Option String) (resp : HttpResponse)
    (h : resp.status_code ≠ 200) :
    (recognize_impl opts wav_bytes language
          (fun _ => NetResult.success resp)).result =
        Except.error APIError.APIConnectionError ∧
      (recognize_impl opts wav_bytes language
          (fun _ => NetResult.success resp)).log =
        ["Error in speech recognition: HTTP transcription failed with status "
          ++ toString resp.status_code ++ ": " ++ resp.text] := by
  refine ⟨?_, ?_⟩ <;>
    simp only [recognize_impl, recognize_with_snapshot, if_neg h]

/-- C5 witness: a concrete call receiving a 500 response with body
`internal server error`. -/
theorem transcribe_non200_fails_with_logged_detail_witness :
    ((500 : Nat) ≠ 200) ∧
      (recognize_impl { server_url := "http://localhost:8989", language := "en" }
            [] none
            (fun _ => NetResult.success
              { status_code := 500, json := none
                text := "internal server error" })).result =
          Except.error APIError.APIConnectionError ∧
        (recognize_impl { server_url := "http://localhost:8989", language := "en" }
            [] none
            (fun _ => NetResult.success
              { status_code := 500, json := none
                text := "internal server error" })).log =
          ["Error in speech recognition: HTTP transcription failed with status 500: internal server error"] :=
  ⟨by decide,
    transcribe_non200_fails_with_logged_detail
      { server_url := "http://localhost:8989", language := "en" } [] none
      { status_code := 500, json := none, text := "internal server error" }
      (by decide)⟩

/-- C6 (amended): a 200 response whose JSON object has no `text` field
yields a successful result with the empty transcript — provided the
observability fields `processing_time` and `audio_duration` are each
absent or numeric; partial payloads are thus not tolerated in general: a
present non-numeric observability value makes the success-log f-string
raise and the call fail with the connection error. -/
theorem transcribe_200_missing_text_defaults_empty (opts : CanaryOptions)
    (wav_bytes : List Nat) (language : Option String) (resp : HttpResponse)
    (obj : JsonObject) (pt ad : Int) (h200 : resp.status_code = 200)
    (hjson : resp.json = some obj) (hmiss : jsonGet obj "text" = none)
    (hpt : observability_number (jsonGet obj "processing_time") = some pt)
    (had : observability_number (jsonGet obj "audio_duration") = some ad) :
    (recognize_impl opts wav_bytes language
        (fun _ => NetResult.success resp)).result =
      Except.ok
        { type := SpeechEventType.FINAL_TRANSCRIPT
          alternatives := [{ text := ""
                             language := language.getD opts.language }] } := by
  simp only [recognize_impl, recognize_with_snapshot, extract_text, h200,
    hjson, hmiss, hpt, had, if_pos, sanitize_options_language]
  rfl

/-- C6 (counterexample): a concrete 200 response with the partial payload
`{"processing_time": null}` (no `text` field) does not yield the claimed
empty transcript — the success-log f-string raises on the `null`
observability field and the call fails with the connection error, a hard
failure for a partial payload. -/
theorem transcribe_200_partial_payload_fails :
    (recognize_impl { server_url := "http://localhost:8989", language := "en" }
        [] none
        (fun _ => NetResult.success
          { status_code := 200
            json := some [("processing_time", JsonValue.null)]
            text := "" })).result =
      Except.error APIError.APIConnectionError := rfl

/-- C6 witness: a concrete call receiving `200` with JSON body
`{"processing_time": 1}` (no `text` field, numeric observability
field). -/
theorem transcribe_200_missing_text_defaults_empty_witness :
    ((200 : Nat) = 200 ∧
        (some [("processing_time", JsonValue.num 1)] : Option JsonObject) =
          some [("processing_time", JsonValue.num 1)] ∧
        jsonGet [("processing_time", JsonValue.num 1)] "text" = none ∧
        observability_number
            (jsonGet [("processing_time", JsonValue.num 1)] "processing_time") =
          some 1 ∧
        observability_number
            (jsonGet [("processing_time", JsonValue.num 1)] "audio_duration") =
          some 0) ∧
      (recognize_impl { server_url := "http://localhost:8989", language := "en" }
          [] none
          (fun _ => NetResult.success
            { status_code := 200
              json := some [("processing_time", JsonValue.num 1)]
              text := "" })).result =
        Except.ok
          { type := SpeechEventType.FINAL_TRANSCRIPT
            alternatives := [{ text := "", language := "en" }] } :=
  ⟨⟨rfl, rfl, rfl, rfl, rfl⟩,
    transcribe_200_missing_text_defaults_empty
      { server_url := "http://localhost:8989", language := "en" } [] none
      { status_code := 200
        json := some [("processing_time", JsonValue.num 1)]
        text := "" }
      [("processing_time", JsonValue.num 1)] 1 0 rfl rfl rfl rfl rfl⟩

/-- C7: `update_options` is a partial update — omitted or empty arguments
leave the corresponding field unchanged, non-empty arguments replace it;
an update changes the language that the next call's snapshot picks up,
while an in-flight call's behaviour is fully determined by the snapshot it
captured on entry (so a later update cannot alter it). -/
theorem update_options_partial_update (opts : CanaryOptions) (s l : String)
    (wav_bytes : List Nat) (ov : Option String) (net : Request → NetResult)
    (hs : s ≠ "") (hl : l ≠ "") :
    update_options opts none none = opts ∧
      update_options opts (some "") (some "") = opts ∧
      update_options opts (some s) none = { opts with server_url := s } ∧
      update_options opts none (some l) = { opts with language := l } ∧
      (sanitize_options (update_options opts none (some l)) none).language = l ∧
      recognize_impl opts wav_bytes ov net =
        recognize_with_snapshot (sanitize_options opts ov) wav_bytes net := by
  refine ⟨rfl, ?_, ?_, ?_, ?_, rfl⟩
  · simp [update_options]
  · simp [update_options, hs]
  · simp [update_options, hl]
  · simp [update_options, sanitize_options, hl]

/-- C7 witness: a concrete configuration updated with a new URL, a new
language `"fr"`, the empty string, and nothing, around a concrete call. -/
theorem update_options_partial_update_witness :
    (("http://example.com:9000" : String) ≠ "" ∧ ("fr" : String) ≠ "") ∧
      (update_options { server_url := "http://localhost:8989", language := "en" }
            none none =
          { server_url := "http://localhost:8989", language := "en" } ∧
        update_options { server_url := "http://localhost:8989", language := "en" }
            (some "") (some "") =
          { server_url := "http://localhost:8989", language := "en" } ∧
        update_options { server_url := "http://localhost:8989", language := "en" }
            (some "http://example.com:9000") none =
          { server_url := "http://example.com:9000", language := "en" } ∧
        update_options { server_url := "http://localhost:8989", language := "en" }
            none (some "fr") =
          { server_url := "http://localhost:8989", language := "fr" } ∧
        (sanitize_options
            (update_options { server_url := "http://localhost:8989", language := "en" }
              none (some "fr")) none).language = "fr" ∧
        recognize_impl { server_url := "http://localhost:8989", language := "en" }
            [] none (fun _ => NetResult.requestException "refused") =
          recognize_with_snapshot
            (sanitize_options { server_url := "http://localhost:8989", language := "en" }
              none)
            [] (fun _ => NetResult.requestException "refused")) :=
  ⟨⟨by decide, by decide⟩,
    update_options_partial_update
      { server_url := "http://localhost:8989", language := "en" }
      "http://example.com:9000" "fr" [] none
      (fun _ => NetResult.requestException "refused")
      (by decide) (by decide)⟩
